import Mathlib

/-!
Shallow embedding of the woometrics scrape-and-aggregate pipeline:
the WooCommerce client pagination loops, the metrics collector
reductions, and the orchestrator fan-out, as pure functions.
-/

namespace WooMetrics

/-- Calendar date of an order creation timestamp, as compared by the
collector (toDateString equality for today, year-month equality for
this month). -/
structure SimpleDate where
  year : Int
  month : Nat
  day : Nat
deriving DecidableEq, Repr

/-- One WooCommerce order line item; quantity models the result of
parseInt(item.quantity), with none standing for NaN (absent or
non-numeric). -/
structure LineItem where
  product_id : Nat
  name : String
  quantity : Option Int
deriving DecidableEq, Repr

/-- One WooCommerce order; total models the result of
parseFloat(order.total), with none standing for NaN. -/
structure Order where
  status : String
  date_created : SimpleDate
  total : Option ℚ
  line_items : List LineItem
deriving DecidableEq, Repr

/-- One WooCommerce product; stock_quantity models the result of
parseInt(product.stock_quantity), with none standing for NaN (absent
or non-numeric). -/
structure Product where
  status : String
  stock_quantity : Option Int
  stock_status : String
  manage_stock : Bool
deriving DecidableEq, Repr

/-- Customer records carry no fields that the collector reads; only
page lengths matter. -/
abbrev Customer := Unit

/-- The metric series declared by the collector, with their non-store
label values. Store id and store name labels live in MKey. -/
inductive Series where
  | totalOrders (status currency : String)
  | ordersByStatus (status currency : String)
  | totalRevenue (currency period : String)
  | revenueToday (currency : String)
  | revenueThisMonth (currency : String)
  | totalProducts (status : String)
  | lowStockProducts (threshold : String)
  | outOfStockProducts
  | totalCustomers
  | averageOrderValue (currency period : String)
  | pendingOrders
  | failedOrders
  | processingOrders
  | topProductsSold (product_id product_name : String)
  | lastScrapeSuccess
  | scrapeErrors (error_type : String)
  | scrapeDuration
  | apiResponseTime (endpoint : String)
deriving DecidableEq, Repr

/-- Full label-set identity of one metric cell: series name plus all
label values, including the store labels shared by every series. -/
structure MKey where
  store_id : String
  store_name : String
  series : Series
deriving DecidableEq, Repr

/-- One registry mutation: gauge set (overwrite) or counter inc
(accumulate). -/
inductive WriteOp where
  | set (k : MKey) (v : ℚ)
  | inc (k : MKey) (v : ℚ)
deriving DecidableEq, Repr

/-- The key a write targets. -/
def WriteOp.key : WriteOp → MKey
  | .set k _ => k
  | .inc k _ => k

/-- The prom-client registry state: most recent writes first; lookup
finds the current value of a cell. -/
abbrev Registry := List (MKey × ℚ)

/-- Current value of one metric cell, if it was ever written. -/
def Registry.lookup (reg : Registry) (k : MKey) : Option ℚ :=
  match reg with
  | [] => none
  | (k', v) :: rest => if k' = k then some v else Registry.lookup rest k

/-- Current value of one metric cell, defaulting to 0 (a counter that
was never incremented reads as 0). -/
def Registry.lookupD (reg : Registry) (k : MKey) : ℚ :=
  (reg.lookup k).getD 0

/-- Apply one write: a gauge set overwrites the cell, a counter inc
adds to its current value. -/
def applyOp (reg : Registry) (w : WriteOp) : Registry :=
  match w with
  | .set k v => (k, v) :: reg
  | .inc k d => (k, reg.lookupD k + d) :: reg

/-- Apply a sequence of writes in program order. -/
def applyOps (reg : Registry) (ws : List WriteOp) : Registry :=
  ws.foldl applyOp reg

theorem applyOps_append (reg : Registry) (a b : List WriteOp) :
    applyOps reg (a ++ b) = applyOps (applyOps reg a) b :=
  List.foldl_append _ _ _ _

/-- Writes that do not target a key leave its value unchanged. -/
theorem lookup_applyOps_frame (reg : Registry) (ws : List WriteOp) (k : MKey)
    (h : ∀ w ∈ ws, w.key ≠ k) :
    (applyOps reg ws).lookup k = reg.lookup k := by
  induction ws generalizing reg with
  | nil => rfl
  | cons w ws ih =>
    have hk : w.key ≠ k := h w (List.mem_cons_self _ _)
    have hrest : ∀ w ∈ ws, WriteOp.key w ≠ k := fun w hw => h w (List.mem_cons_of_mem _ hw)
    cases w with
    | set k' v =>
      simp only [applyOps, List.foldl_cons, applyOp]
      rw [show List.foldl applyOp ((k', v) :: reg) ws = applyOps ((k', v) :: reg) ws from rfl,
        ih _ hrest]
      simp only [Registry.lookup]
      exact if_neg (by simpa [WriteOp.key] using hk)
    | inc k' d =>
      simp only [applyOps, List.foldl_cons, applyOp]
      rw [show List.foldl applyOp ((k', reg.lookupD k' + d) :: reg) ws
            = applyOps ((k', reg.lookupD k' + d) :: reg) ws from rfl,
        ih _ hrest]
      simp only [Registry.lookup]
      exact if_neg (by simpa [WriteOp.key] using hk)

/-! Pagination loops of the WooCommerce client (getAllOrders and
getAllProducts share the same loop body).  The fetch argument models
one getOrders/getProducts call: fetch page perPage either returns the
page records or fails.  The returned pair carries the concatenated
records and the number of page requests issued. -/

/-- Pagination loop body shared by getAllOrders and getAllProducts:
request per_page 100, stop on the first empty page, break once page
would exceed 100 after the increment. -/
def fetchPages {α : Type} (fetch : Nat → Nat → Except String (List α))
    (page : Nat) (acc : List α) (calls : Nat) : Except String (List α × Nat) :=
  match fetch page 100 with
  | .error e => .error e
  | .ok recs =>
    if recs.length = 0 then .ok (acc, calls + 1)
    else if 100 < page + 1 then .ok (acc ++ recs, calls + 1)
    else fetchPages fetch (page + 1) (acc ++ recs) (calls + 1)
termination_by 101 - page
decreasing_by omega

/-- getAllOrders: paginate orders from page 1. -/
def getAllOrders {α : Type} (fetch : Nat → Nat → Except String (List α)) :
    Except String (List α × Nat) :=
  fetchPages fetch 1 [] 0

/-- getAllProducts: paginate products from page 1 (identical loop). -/
def getAllProducts {α : Type} (fetch : Nat → Nat → Except String (List α)) :
    Except String (List α × Nat) :=
  fetchPages fetch 1 [] 0

theorem fetchPages_full {α : Type} (fetch : Nat → Nat → Except String (List α))
    (pages : Nat → List α) :
    ∀ (m page acc calls), page + m = 100 → 1 ≤ page →
    (∀ q, page ≤ q → q ≤ 100 → fetch q 100 = .ok (pages q) ∧ pages q ≠ []) →
    fetchPages fetch page acc calls
      = .ok (acc ++ ((List.range' page (m + 1)).map pages).flatten, calls + (m + 1)) := by
  intro m
  induction m with
  | zero =>
    intro page acc calls hpm hp1 h
    have hpage : page = 100 := by omega
    subst hpage
    obtain ⟨hf, hne⟩ := h 100 le_rfl le_rfl
    rw [fetchPages, hf]
    simp only []
    rw [if_neg (by simpa [List.length_eq_zero] using hne), if_pos (by omega)]
    simp [List.range'_succ]
  | succ m ih =>
    intro page acc calls hpm hp1 h
    obtain ⟨hf, hne⟩ := h page le_rfl (by omega)
    rw [fetchPages, hf]
    simp only []
    rw [if_neg (by simpa [List.length_eq_zero] using hne), if_neg (by omega)]
    rw [ih (page + 1) (acc ++ pages page) (calls + 1) (by omega) (by omega)
      (fun q hq1 hq2 => h q (by omega) hq2)]
    have hc : calls + 1 + (m + 1) = calls + (m + 1 + 1) := by omega
    simp [List.range'_succ, List.append_assoc, hc]

theorem fetchPages_stop {α : Type} (fetch : Nat → Nat → Except String (List α))
    (pages : Nat → List α) (k : Nat) (hk : k ≤ 100) (hke : fetch k 100 = .ok []) :
    ∀ (m page acc calls), page + m = k → 1 ≤ page →
    (∀ q, page ≤ q → q < k → fetch q 100 = .ok (pages q) ∧ pages q ≠ []) →
    fetchPages fetch page acc calls
      = .ok (acc ++ ((List.range' page m).map pages).flatten, calls + (m + 1)) := by
  intro m
  induction m with
  | zero =>
    intro page acc calls hpm hp1 h
    have hpage : page = k := by omega
    subst hpage
    rw [fetchPages, hke]
    simp
  | succ m ih =>
    intro page acc calls hpm hp1 h
    obtain ⟨hf, hne⟩ := h page le_rfl (by omega)
    rw [fetchPages, hf]
    simp only []
    rw [if_neg (by simpa [List.length_eq_zero] using hne), if_neg (by omega)]
    rw [ih (page + 1) (acc ++ pages page) (calls + 1) (by omega) (by omega)
      (fun q hq1 hq2 => h q (by omega) hq2)]
    have hc : calls + 1 + (m + 1) = calls + (m + 1 + 1) := by omega
    simp [List.range'_succ, List.append_assoc, hc]

/-- C2: for both record types (orders, products), when the upstream
source answers every request with a non-empty page, the paginated
fetch requests exactly 100 pages of page size 100, then stops and
returns the concatenation of pages 1..100 without raising an error;
and when some page is empty, it stops immediately at the first empty
page, returning the concatenation of the pages before it. -/
theorem c2_pagination_ceiling {α : Type}
    (fetch : Nat → Nat → Except String (List α)) (pages : Nat → List α) :
    ((∀ q, 1 ≤ q → q ≤ 100 → fetch q 100 = .ok (pages q) ∧ pages q ≠ []) →
      getAllOrders fetch = .ok (((List.range' 1 100).map pages).flatten, 100) ∧
      getAllProducts fetch = .ok (((List.range' 1 100).map pages).flatten, 100)) ∧
    (∀ k, 1 ≤ k → k ≤ 100 →
      (∀ q, 1 ≤ q → q < k → fetch q 100 = .ok (pages q) ∧ pages q ≠ []) →
      fetch k 100 = .ok [] →
      getAllOrders fetch = .ok (((List.range' 1 (k - 1)).map pages).flatten, k) ∧
      getAllProducts fetch = .ok (((List.range' 1 (k - 1)).map pages).flatten, k)) := by
  constructor
  · intro h
    have := fetchPages_full fetch pages 99 1 [] 0 (by omega) le_rfl
      (fun q hq1 hq2 => h q hq1 hq2)
    constructor <;>
      simpa [getAllOrders, getAllProducts] using this
  · intro k hk1 hk2 h hke
    have := fetchPages_stop fetch pages k hk2 hke (k - 1) 1 [] 0 (by omega) le_rfl
      (fun q hq1 hq2 => h q hq1 hq2)
    have hkk : k - 1 + 1 = k := by omega
    rw [hkk] at this
    constructor <;>
      simpa [getAllOrders, getAllProducts] using this

/-- Witness for C2 at a concrete upstream: every page is the
singleton page [0], so exactly 100 pages are fetched; and an upstream
whose page 3 is empty stops after 3 requests with pages 1 and 2
concatenated. -/
theorem c2_pagination_ceiling_witness :
    getAllOrders (fun _ _ => .ok [(0 : ℚ)])
      = .ok (((List.range' 1 100).map (fun _ => [(0 : ℚ)])).flatten, 100) ∧
    getAllOrders (fun p _ => if p < 3 then .ok [(0 : ℚ)] else .ok [])
      = .ok (((List.range' 1 2).map (fun _ => [(0 : ℚ)])).flatten, 3) := by
  constructor
  · exact ((c2_pagination_ceiling (fun _ _ => .ok [(0 : ℚ)]) (fun _ => [(0 : ℚ)])).1
      (fun q _ _ => ⟨rfl, by simp⟩)).1
  · exact ((c2_pagination_ceiling (fun p _ => if p < 3 then .ok [(0 : ℚ)] else .ok [])
      (fun _ => [(0 : ℚ)])).2 3 (by omega) (by omega)
      (fun q hq1 hq2 => ⟨by simp [hq2], by simp⟩) (by simp)).1

/-! Order reduction (collectOrderMetrics). -/

/-- Accumulator state of the per-order loop in collectOrderMetrics.
statusCounts and productSales model plain JS objects: statusCounts in
first-insertion order (status strings are not integer-like keys),
productSales keyed by the numeric product id. -/
structure OrderAcc where
  statusCounts : List (String × Nat)
  totalRevenue : ℚ
  revenueToday : ℚ
  revenueThisMonth : ℚ
  totalOrderValue : ℚ
  productSales : List (Nat × String × Int)
deriving DecidableEq, Repr

/-- statusCounts[status] = (statusCounts[status] || 0) + 1, keeping
first-insertion order for Object.entries. -/
def bumpStatus : List (String × Nat) → String → List (String × Nat)
  | [], s => [(s, 1)]
  | (s', c) :: rest, s =>
    if s' = s then (s', c + 1) :: rest else (s', c) :: bumpStatus rest s

/-- statusCounts[s] || 0. -/
def countOf : List (String × Nat) → String → Nat
  | [], _ => 0
  | (s', c) :: rest, s => if s' = s then c else countOf rest s

/-- productSales[id] defaulting to {name, quantity: 0}, then
quantity += q; the stored name is the first one seen for the id. -/
def bumpSale : List (Nat × String × Int) → Nat → String → Int → List (Nat × String × Int)
  | [], pid, pname, q => [(pid, pname, q)]
  | (pid', n, q') :: rest, pid, pname, q =>
    if pid' = pid then (pid', n, q' + q) :: rest
    else (pid', n, q') :: bumpSale rest pid pname q

/-- One iteration of orders.forEach in collectOrderMetrics. -/
def processOrder (today : SimpleDate) (acc : OrderAcc) (o : Order) : OrderAcc :=
  let orderTotal : ℚ := o.total.getD 0
  let acc := { acc with statusCounts := bumpStatus acc.statusCounts o.status }
  let acc :=
    if o.status = "completed" then
      let acc := { acc with
        totalRevenue := acc.totalRevenue + orderTotal,
        totalOrderValue := acc.totalOrderValue + orderTotal }
      let acc :=
        if o.date_created = today then
          { acc with revenueToday := acc.revenueToday + orderTotal }
        else acc
      if o.date_created.year = today.year ∧ o.date_created.month = today.month then
        { acc with revenueThisMonth := acc.revenueThisMonth + orderTotal }
      else acc
    else acc
  { acc with
    productSales := o.line_items.foldl
      (fun ps item => bumpSale ps item.product_id item.name (item.quantity.getD 0))
      acc.productSales }

/-- Accumulator after processing a whole order list. -/
def orderAccOf (today : SimpleDate) (orders : List Order) : OrderAcc :=
  orders.foldl (processOrder today) ⟨[], 0, 0, 0, 0, []⟩

/-- Stable insertion into a list sorted by descending quantity: the
inserted element goes after earlier elements of equal quantity,
modelling the stable JS Array sort with comparator b.quantity -
a.quantity. -/
def insertByQty (e : Nat × String × Int) : List (Nat × String × Int) → List (Nat × String × Int)
  | [] => [e]
  | f :: fs => if f.2.2 ≤ e.2.2 then e :: f :: fs else f :: insertByQty e fs

/-- Stable sort by descending quantity. -/
def sortByQtyDesc : List (Nat × String × Int) → List (Nat × String × Int)
  | [] => []
  | e :: es => insertByQty e (sortByQtyDesc es)

/-- Insertion into a list sorted by ascending product id (ids are
unique object keys). -/
def insertById (e : Nat × String × Int) : List (Nat × String × Int) → List (Nat × String × Int)
  | [] => [e]
  | f :: fs => if e.1 ≤ f.1 then e :: f :: fs else f :: insertById e fs

/-- Object.entries iteration order of productSales: integer-like keys
enumerate in ascending numeric order. -/
def salesEntries : List (Nat × String × Int) → List (Nat × String × Int)
  | [] => []
  | e :: es => insertById e (salesEntries es)

/-- Top ten products by quantity sold: Object.entries order, stable
descending sort by quantity, slice(0, 10). -/
def topProducts (ps : List (Nat × String × Int)) : List (Nat × String × Int) :=
  (sortByQtyDesc (salesEntries ps)).take 10

/-- The registry writes issued by a successful collectOrderMetrics
run, in program order. -/
def orderWrites (sid sname currency : String) (apiDur : ℚ) (today : SimpleDate)
    (orders : List Order) : List WriteOp :=
  let acc := orderAccOf today orders
  let completedOrders := countOf acc.statusCounts "completed"
  let avgOrderValue : ℚ :=
    if 0 < completedOrders then acc.totalOrderValue / completedOrders else 0
  [WriteOp.set ⟨sid, sname, .apiResponseTime "orders"⟩ apiDur,
   WriteOp.set ⟨sid, sname, .totalOrders "all" currency⟩ orders.length] ++
  acc.statusCounts.map (fun sc => WriteOp.set ⟨sid, sname, .ordersByStatus sc.1 currency⟩ sc.2) ++
  [WriteOp.set ⟨sid, sname, .pendingOrders⟩ (countOf acc.statusCounts "pending"),
   WriteOp.set ⟨sid, sname, .failedOrders⟩ (countOf acc.statusCounts "failed"),
   WriteOp.set ⟨sid, sname, .processingOrders⟩ (countOf acc.statusCounts "processing"),
   WriteOp.set ⟨sid, sname, .totalRevenue currency "all_time"⟩ acc.totalRevenue,
   WriteOp.set ⟨sid, sname, .revenueToday currency⟩ acc.revenueToday,
   WriteOp.set ⟨sid, sname, .revenueThisMonth currency⟩ acc.revenueThisMonth,
   WriteOp.set ⟨sid, sname, .averageOrderValue currency "all_time"⟩ avgOrderValue] ++
  (topProducts acc.productSales).map
    (fun e => WriteOp.set ⟨sid, sname, .topProductsSold (toString e.1) e.2.1⟩ (e.2.2 : ℚ))

/-- collectOrderMetrics: on a successful order fetch it issues the
gauge writes; on a fetch failure it increments the orders error
counter and rejects (Bool component false). -/
def collectOrderMetrics (sid sname currency : String) (apiDur : ℚ) (today : SimpleDate)
    (fetched : Except String (List Order)) : List WriteOp × Bool :=
  match fetched with
  | .ok orders => (orderWrites sid sname currency apiDur today orders, true)
  | .error _ => ([WriteOp.inc ⟨sid, sname, .scrapeErrors "orders"⟩ 1], false)

/-! Product reduction (collectProductMetrics). -/

/-- Accumulator state of the per-product loop. -/
structure ProdAcc where
  statusCounts : List (String × Nat)
  lowStockCount : Nat
  outOfStockCount : Nat
deriving DecidableEq, Repr

/-- One iteration of products.forEach: status tally, then the
out-of-stock check before the else-if low-stock check, with
stockQuantity = parseInt(stock_quantity) || 0 and lowStockThreshold
fixed at 10. -/
def processProduct (acc : ProdAcc) (p : Product) : ProdAcc :=
  let stockQuantity : Int := p.stock_quantity.getD 0
  let acc := { acc with statusCounts := bumpStatus acc.statusCounts p.status }
  if p.stock_status = "outofstock" ∨ stockQuantity = 0 then
    { acc with outOfStockCount := acc.outOfStockCount + 1 }
  else if p.manage_stock = true ∧ stockQuantity ≤ 10 then
    { acc with lowStockCount := acc.lowStockCount + 1 }
  else acc

/-- Accumulator after processing a whole product list. -/
def prodAccOf (products : List Product) : ProdAcc :=
  products.foldl processProduct ⟨[], 0, 0⟩

/-- The registry writes issued by a successful collectProductMetrics
run, in program order. -/
def productWrites (sid sname : String) (apiDur : ℚ) (products : List Product) : List WriteOp :=
  let acc := prodAccOf products
  [WriteOp.set ⟨sid, sname, .apiResponseTime "products"⟩ apiDur,
   WriteOp.set ⟨sid, sname, .totalProducts "all"⟩ products.length] ++
  acc.statusCounts.map (fun sc => WriteOp.set ⟨sid, sname, .totalProducts sc.1⟩ sc.2) ++
  [WriteOp.set ⟨sid, sname, .lowStockProducts "10"⟩ acc.lowStockCount,
   WriteOp.set ⟨sid, sname, .outOfStockProducts⟩ acc.outOfStockCount]

/-- collectProductMetrics with the same failure convention as the
order reduction. -/
def collectProductMetrics (sid sname : String) (apiDur : ℚ)
    (fetched : Except String (List Product)) : List WriteOp × Bool :=
  match fetched with
  | .ok products => (productWrites sid sname apiDur products, true)
  | .error _ => ([WriteOp.inc ⟨sid, sname, .scrapeErrors "products"⟩ 1], false)

/-! Customer reduction (collectCustomerMetrics).  getC perPage page
models one getCustomers call. -/

/-- The while loop of the capped customer count: pages 2..10, page
size 100, stopping at the first empty page; any fetch failure
propagates to the inner catch. -/
def customerWalk (getC : Nat → Nat → Except String (List Customer))
    (page : Nat) (total : Nat) : Except String Nat :=
  if page ≤ 10 then
    match getC 100 page with
    | .error e => .error e
    | .ok pageCustomers =>
      if pageCustomers.length = 0 then .ok total
      else customerWalk getC (page + 1) (total + pageCustomers.length)
  else .ok total
termination_by 11 - page
decreasing_by omega

/-- Body of the inner try of collectCustomerMetrics: one page-1 fetch
with page size 100, then (only when that page has exactly 100
records) the capped walk from page 2. -/
def customerCountInner (getC : Nat → Nat → Except String (List Customer)) :
    Except String Nat :=
  match getC 100 1 with
  | .error e => .error e
  | .ok allCustomers =>
    if allCustomers.length = 100 then customerWalk getC 2 allCustomers.length
    else .ok allCustomers.length

/-- collectCustomerMetrics: the initial getCustomers({per_page: 1})
probe, whose failure fails the reduction; then the inner try whose
failure falls back to the probe result length. -/
def collectCustomerMetrics (sid sname : String) (apiDur : ℚ)
    (getC : Nat → Nat → Except String (List Customer)) : List WriteOp × Bool :=
  match getC 1 1 with
  | .error _ => ([WriteOp.inc ⟨sid, sname, .scrapeErrors "customers"⟩ 1], false)
  | .ok customers =>
    let totalCustomers : Nat :=
      match customerCountInner getC with
      | .ok t => t
      | .error _ => customers.length
    ([WriteOp.set ⟨sid, sname, .apiResponseTime "customers"⟩ apiDur,
      WriteOp.set ⟨sid, sname, .totalCustomers⟩ totalCustomers], true)

/-! Store collection (collectStoreMetrics) and the orchestrator
(collectAllMetrics in app.js). -/

/-- Everything one store collection observes from the outside world:
store identity, the outcome of the order and product fetches, the
customer fetch function, the measured API durations, and the
wall-clock start and end times in milliseconds. -/
structure StoreFetch where
  store_id : String
  store_name : String
  currency : String
  orders : Except String (List Order)
  products : Except String (List Product)
  getCustomers : Nat → Nat → Except String (List Customer)
  orderApiDur : ℚ
  productApiDur : ℚ
  customerApiDur : ℚ
  startMs : Nat
  endMs : Nat

/-- collectStoreMetrics: the three reductions run under
Promise.allSettled, so their rejections are swallowed; afterwards the
lastScrapeSuccess timestamp (seconds, floored) and the scrape
duration are always set.  The Bool component records whether the call
itself resolves, which it always does: the outer catch with its
general error counter is unreachable. -/
def collectStoreMetrics (today : SimpleDate) (s : StoreFetch) : List WriteOp × Bool :=
  let wo := (collectOrderMetrics s.store_id s.store_name s.currency s.orderApiDur
    today s.orders).1
  let wp := (collectProductMetrics s.store_id s.store_name s.productApiDur s.products).1
  let wc := (collectCustomerMetrics s.store_id s.store_name s.customerApiDur
    s.getCustomers).1
  (wo ++ wp ++ wc ++
    [WriteOp.set ⟨s.store_id, s.store_name, .lastScrapeSuccess⟩ ((s.endMs / 1000 : Nat) : ℚ),
     WriteOp.set ⟨s.store_id, s.store_name, .scrapeDuration⟩
       (((s.endMs : ℚ) - (s.startMs : ℚ)) / 1000)],
   true)

/-- collectAllMetrics of the orchestrator: an early return when no
store clients exist, otherwise one collectStoreMetrics per store with
a per-store success flag (true when the store collection resolved). -/
def collectAllMetrics (today : SimpleDate) (stores : List StoreFetch) :
    List WriteOp × List (String × Bool) :=
  if stores.isEmpty then ([], [])
  else ((stores.map (fun s => (collectStoreMetrics today s).1)).flatten,
        stores.map (fun s => (s.store_id, (collectStoreMetrics today s).2)))

/-- testConnection: one system_status call; a success returns true, a
failure is logged and returns false. -/
def testConnection (statusCall : Except String Unit) : Bool :=
  match statusCall with
  | .ok _ => true
  | .error _ => false

/-- clearMetrics: register.clear() plus re-declaration leaves a
registry with no values. -/
def clearMetrics (_reg : Registry) : Registry := []

/-- The text rendering of the registry: every cell that was ever
written, with its current value (first occurrence wins). -/
def renderGo : Registry → List MKey → Registry
  | [], _ => []
  | (k, v) :: rest, seen =>
    if k ∈ seen then renderGo rest seen else (k, v) :: renderGo rest (k :: seen)

/-- Entries of the rendered metrics snapshot. -/
def renderEntries (reg : Registry) : Registry := renderGo reg []

/-! Bookkeeping lemmas about write sequences. -/

/-- Sum of the deltas of the counter increments targeting a key. -/
def incSum (k : MKey) : List WriteOp → ℚ
  | [] => 0
  | WriteOp.set _ _ :: ws => incSum k ws
  | WriteOp.inc k' d :: ws => (if k' = k then d else 0) + incSum k ws

theorem incSum_append (k : MKey) (a b : List WriteOp) :
    incSum k (a ++ b) = incSum k a + incSum k b := by
  induction a with
  | nil => simp [incSum]
  | cons w ws ih =>
    cases w with
    | set k' v => simp [incSum, ih]
    | inc k' d => simp [incSum, ih]; ring

theorem incSum_of_sets (k : MKey) (ws : List WriteOp)
    (h : ∀ w ∈ ws, ∃ k' v, w = WriteOp.set k' v) : incSum k ws = 0 := by
  induction ws with
  | nil => rfl
  | cons w ws ih =>
    obtain ⟨k', v, rfl⟩ := h w (List.mem_cons_self _ _)
    exact ih (fun w hw => h w (List.mem_cons_of_mem _ hw))

/-- A gauge cell a write sequence never sets evolves by the sum of
the increments on it. -/
theorem lookupD_applyOps_incs (reg : Registry) (ws : List WriteOp) (k : MKey)
    (h : ∀ k' v, WriteOp.set k' v ∈ ws → k' ≠ k) :
    (applyOps reg ws).lookupD k = reg.lookupD k + incSum k ws := by
  induction ws generalizing reg with
  | nil => simp [applyOps, incSum]
  | cons w ws ih =>
    cases w with
    | set k' v =>
      have hk : k' ≠ k := h k' v (List.mem_cons_self _ _)
      have hrest : ∀ k' v, WriteOp.set k' v ∈ ws → k' ≠ k :=
        fun k' v hw => h k' v (List.mem_cons_of_mem _ hw)
      show (applyOps ((k', v) :: reg) ws).lookupD k = reg.lookupD k + incSum k (_ :: ws)
      rw [ih _ hrest]
      simp [Registry.lookupD, Registry.lookup, incSum, if_neg hk]
    | inc k' d =>
      have hrest : ∀ k' v, WriteOp.set k' v ∈ ws → k' ≠ k :=
        fun k' v hw => h k' v (List.mem_cons_of_mem _ hw)
      show (applyOps ((k', reg.lookupD k' + d) :: reg) ws).lookupD k
          = reg.lookupD k + incSum k (_ :: ws)
      rw [ih _ hrest]
      by_cases hk : k' = k
      · subst hk
        simp [Registry.lookupD, Registry.lookup, incSum]
        ring
      · simp [Registry.lookupD, Registry.lookup, incSum, if_neg hk]

/-- A set sandwiched between writes: if nothing after it targets its
key, the final value of the key is the set value. -/
theorem lookup_applyOps_set (reg : Registry) (pre post : List WriteOp) (k : MKey) (v : ℚ)
    (h : ∀ w ∈ post, w.key ≠ k) :
    (applyOps reg (pre ++ WriteOp.set k v :: post)).lookup k = some v := by
  rw [applyOps_append]
  show (applyOps (applyOp (applyOps reg pre) (WriteOp.set k v)) post).lookup k = some v
  rw [lookup_applyOps_frame _ _ _ h]
  simp [applyOp, Registry.lookup]

/-- Series written by the order reduction. -/
def Series.isOrderSeries : Series → Bool
  | .totalOrders _ _ => true
  | .ordersByStatus _ _ => true
  | .totalRevenue _ _ => true
  | .revenueToday _ => true
  | .revenueThisMonth _ => true
  | .averageOrderValue _ _ => true
  | .pendingOrders => true
  | .failedOrders => true
  | .processingOrders => true
  | .topProductsSold _ _ => true
  | .apiResponseTime e => e == "orders"
  | _ => false

/-- Series written by the product reduction. -/
def Series.isProductSeries : Series → Bool
  | .totalProducts _ => true
  | .lowStockProducts _ => true
  | .outOfStockProducts => true
  | .apiResponseTime e => e == "products"
  | _ => false

/-- Series written by the customer reduction. -/
def Series.isCustomerSeries : Series → Bool
  | .totalCustomers => true
  | .apiResponseTime e => e == "customers"
  | _ => false

theorem orderWrites_shape (sid sname currency : String) (apiDur : ℚ) (today : SimpleDate)
    (orders : List Order) :
    ∀ w ∈ orderWrites sid sname currency apiDur today orders,
    ∃ ser v, w = WriteOp.set ⟨sid, sname, ser⟩ v ∧ ser.isOrderSeries = true := by
  intro w hw
  simp only [orderWrites, List.mem_append, List.mem_cons, List.mem_map,
    List.not_mem_nil, or_false] at hw
  casesm* _ ∨ _, Exists _, _ ∧ _
  all_goals subst_vars
  all_goals refine ⟨_, _, rfl, ?_⟩
  all_goals rfl

theorem productWrites_shape (sid sname : String) (apiDur : ℚ) (products : List Product) :
    ∀ w ∈ productWrites sid sname apiDur products,
    ∃ ser v, w = WriteOp.set ⟨sid, sname, ser⟩ v ∧ ser.isProductSeries = true := by
  intro w hw
  simp only [productWrites, List.mem_append, List.mem_cons, List.mem_map,
    List.not_mem_nil, or_false] at hw
  casesm* _ ∨ _, Exists _, _ ∧ _
  all_goals subst_vars
  all_goals refine ⟨_, _, rfl, ?_⟩
  all_goals rfl

/-! Claim theorems. -/

/-- C4: a product whose stock status is outofstock or whose tracked
quantity (parseInt coerced, 0 on NaN) is exactly 0 bumps the
out-of-stock count exactly once and leaves the low-stock count
untouched; the low-stock count is bumped exactly when the
out-of-stock condition did not fire, stock management is enabled, and
the quantity is at most 10 (the else branch order of
collectProductMetrics). -/
theorem c4_stock_mutual_exclusivity (acc : ProdAcc) (p : Product) :
    ((p.stock_status = "outofstock" ∨ p.stock_quantity.getD 0 = 0) →
      (processProduct acc p).outOfStockCount = acc.outOfStockCount + 1 ∧
      (processProduct acc p).lowStockCount = acc.lowStockCount) ∧
    ((processProduct acc p).lowStockCount = acc.lowStockCount + 1 ↔
      (¬(p.stock_status = "outofstock" ∨ p.stock_quantity.getD 0 = 0) ∧
        p.manage_stock = true ∧ p.stock_quantity.getD 0 ≤ 10)) := by
  constructor
  · intro h
    unfold processProduct
    rw [if_pos h]
    exact ⟨rfl, rfl⟩
  · unfold processProduct
    dsimp only
    split_ifs with h1 h2 <;> simp_all

/-- Witness for C4 at a concrete product that is outofstock with
tracked quantity 0. -/
theorem c4_stock_mutual_exclusivity_witness :
    (processProduct ⟨[], 3, 5⟩ ⟨"publish", some 0, "outofstock", true⟩).outOfStockCount = 5 + 1 ∧
    (processProduct ⟨[], 3, 5⟩ ⟨"publish", some 0, "outofstock", true⟩).lowStockCount = 3 :=
  (c4_stock_mutual_exclusivity ⟨[], 3, 5⟩ ⟨"publish", some 0, "outofstock", true⟩).1
    (Or.inl rfl)

/-- C10: a product whose stock_quantity is absent or non-numeric
(parseInt gives NaN, coerced to 0 by the or-zero guard) is counted
out of stock regardless of its stock_status, its manage_stock flag,
or anything else. -/
theorem c10_missing_quantity_counts_out_of_stock (acc : ProdAcc) (p : Product)
    (h : p.stock_quantity = none) :
    (processProduct acc p).outOfStockCount = acc.outOfStockCount + 1 := by
  unfold processProduct
  rw [if_pos (Or.inr (by simp [h]))]

/-- Witness for C10: a product marked instock, with stock management
disabled and no quantity set, is still counted out of stock. -/
theorem c10_missing_quantity_counts_out_of_stock_witness :
    (processProduct ⟨[], 0, 0⟩ ⟨"publish", none, "instock", false⟩).outOfStockCount = 0 + 1 :=
  c10_missing_quantity_counts_out_of_stock ⟨[], 0, 0⟩ ⟨"publish", none, "instock", false⟩ rfl

/-- C7: testConnection returns a Bool and never throws; it is true
exactly when the lightweight system_status call succeeds and false
when that call fails for any reason. -/
theorem c7_test_connection_boolean (statusCall : Except String Unit) :
    (statusCall = .ok () → testConnection statusCall = true) ∧
    (∀ e, statusCall = .error e → testConnection statusCall = false) := by
  constructor
  · rintro rfl
    rfl
  · rintro e rfl
    rfl

/-- Witness for C7 at one succeeding and one failing status call. -/
theorem c7_test_connection_boolean_witness :
    testConnection (.ok ()) = true ∧ testConnection (.error "boom") = false :=
  ⟨(c7_test_connection_boolean (.ok ())).1 rfl,
   (c7_test_connection_boolean (.error "boom")).2 "boom" rfl⟩

/-- C6: with no initialized store clients, a full collection cycle
returns at the early guard: it reports no per-store results and
performs no registry write, so every metric value is unchanged. -/
theorem c6_empty_cycle_leaves_registry (today : SimpleDate) (reg : Registry) :
    applyOps reg (collectAllMetrics today []).1 = reg ∧
    (collectAllMetrics today []).2 = [] := by
  constructor <;> rfl

theorem countOf_bumpStatus (counts : List (String × Nat)) (s s' : String) :
    countOf (bumpStatus counts s) s' = countOf counts s' + (if s = s' then 1 else 0) := by
  induction counts with
  | nil => by_cases h : s = s' <;> simp [bumpStatus, countOf, h]
  | cons a rest ih =>
    obtain ⟨a1, c⟩ := a
    by_cases ha : a1 = s
    · subst ha
      by_cases h' : a1 = s'
      · subst h'
        simp [bumpStatus, countOf]
      · simp [bumpStatus, countOf, h']
    · by_cases h' : a1 = s'
      · subst h'
        have hss : ¬s = a1 := fun hcon => ha hcon.symm
        simp [bumpStatus, countOf, ha, hss]
      · simp [bumpStatus, countOf, ha, h', ih]

theorem processOrder_statusCounts (today : SimpleDate) (acc : OrderAcc) (o : Order) :
    (processOrder today acc o).statusCounts = bumpStatus acc.statusCounts o.status := by
  unfold processOrder
  dsimp only
  split_ifs <;> rfl

theorem processOrder_totalOrderValue (today : SimpleDate) (acc : OrderAcc) (o : Order) :
    (processOrder today acc o).totalOrderValue
      = acc.totalOrderValue + (if o.status = "completed" then o.total.getD 0 else 0) := by
  unfold processOrder
  dsimp only
  split_ifs <;> simp

theorem foldl_processOrder_completedCount (today : SimpleDate) :
    ∀ (orders : List Order) (acc : OrderAcc),
    countOf ((orders.foldl (processOrder today) acc).statusCounts) "completed"
      = countOf acc.statusCounts "completed"
        + orders.countP (fun o => o.status == "completed") := by
  intro orders
  induction orders with
  | nil => intro acc; simp
  | cons o os ih =>
    intro acc
    rw [List.foldl_cons, ih, processOrder_statusCounts, countOf_bumpStatus,
      List.countP_cons]
    by_cases h : o.status = "completed" <;> simp [h] <;> omega

theorem foldl_processOrder_totalOrderValue (today : SimpleDate) :
    ∀ (orders : List Order) (acc : OrderAcc),
    (orders.foldl (processOrder today) acc).totalOrderValue
      = acc.totalOrderValue
        + ((orders.map (fun o => if o.status == "completed" then o.total.getD 0 else 0)).sum) := by
  intro orders
  induction orders with
  | nil => intro acc; simp
  | cons o os ih =>
    intro acc
    rw [List.foldl_cons, ih, processOrder_totalOrderValue]
    by_cases h : o.status = "completed" <;> simp [h] <;> ring

/-- C5: the average-order-value gauge is set to 0 when the processed
order list has no completed order, and otherwise to the accumulated
completed-order revenue divided by the number of completed orders;
the division is total on rationals and the zero-completed case never
divides. -/
theorem c5_average_order_value (sid sname currency : String) (apiDur : ℚ)
    (today : SimpleDate) (orders : List Order) (reg : Registry) :
    (orders.countP (fun o => o.status == "completed") = 0 →
      (applyOps reg (orderWrites sid sname currency apiDur today orders)).lookup
          ⟨sid, sname, .averageOrderValue currency "all_time"⟩ = some 0) ∧
    (0 < orders.countP (fun o => o.status == "completed") →
      (applyOps reg (orderWrites sid sname currency apiDur today orders)).lookup
          ⟨sid, sname, .averageOrderValue currency "all_time"⟩
        = some (((orders.map (fun o => if o.status == "completed" then o.total.getD 0 else 0)).sum)
            / (orders.countP (fun o => o.status == "completed") : ℚ))) := by
  have hcomp : countOf ((orderAccOf today orders).statusCounts) "completed"
      = orders.countP (fun o => o.status == "completed") := by
    rw [orderAccOf, foldl_processOrder_completedCount]
    simp [countOf]
  have hval : (orderAccOf today orders).totalOrderValue
      = (orders.map (fun o => if o.status == "completed" then o.total.getD 0 else 0)).sum := by
    rw [orderAccOf, foldl_processOrder_totalOrderValue]
    norm_num
  have hkey : ∀ w ∈ (topProducts (orderAccOf today orders).productSales).map
      (fun e => WriteOp.set ⟨sid, sname, .topProductsSold (toString e.1) e.2.1⟩ (e.2.2 : ℚ)),
      w.key ≠ (⟨sid, sname, .averageOrderValue currency "all_time"⟩ : MKey) := by
    intro w hw
    simp only [List.mem_map] at hw
    obtain ⟨e, _, rfl⟩ := hw
    simp [WriteOp.key]
  have hmain : (applyOps reg (orderWrites sid sname currency apiDur today orders)).lookup
      ⟨sid, sname, .averageOrderValue currency "all_time"⟩
      = some (if 0 < countOf ((orderAccOf today orders).statusCounts) "completed"
          then (orderAccOf today orders).totalOrderValue
            / (countOf ((orderAccOf today orders).statusCounts) "completed" : ℚ)
          else 0) := by
    simp only [orderWrites]
    rw [applyOps_append, applyOps_append, applyOps_append,
      lookup_applyOps_frame _ _ _ hkey]
    simp only [applyOps, List.foldl_cons, List.foldl_nil, applyOp]
    simp [Registry.lookup]
  constructor
  · intro h0
    rw [hmain]
    rw [hcomp] at *
    simp [h0]
  · intro hpos
    rw [hmain]
    rw [hcomp, hval] at *
    simp [hpos, Nat.pos_iff_ne_zero.mp hpos]

/-- Witness for C5: one list with no completed order and one with two
completed orders totalling 30. -/
theorem c5_average_order_value_witness :
    (applyOps [] (orderWrites "s1" "Store One" "USD" 0 ⟨2025, 1, 1⟩
        [⟨"pending", ⟨2025, 1, 1⟩, some 7, []⟩])).lookup
      ⟨"s1", "Store One", .averageOrderValue "USD" "all_time"⟩ = some 0 ∧
    (applyOps [] (orderWrites "s1" "Store One" "USD" 0 ⟨2025, 1, 1⟩
        [⟨"completed", ⟨2025, 1, 1⟩, some 10, []⟩,
         ⟨"completed", ⟨2025, 1, 1⟩, some 20, []⟩])).lookup
      ⟨"s1", "Store One", .averageOrderValue "USD" "all_time"⟩
      = some (((([⟨"completed", ⟨2025, 1, 1⟩, some 10, []⟩,
          ⟨"completed", ⟨2025, 1, 1⟩, some 20, []⟩] : List Order).map
            (fun o => if o.status == "completed" then o.total.getD 0 else 0)).sum) / (2 : ℚ)) := by
  constructor
  · exact (c5_average_order_value "s1" "Store One" "USD" 0 ⟨2025, 1, 1⟩
      [⟨"pending", ⟨2025, 1, 1⟩, some 7, []⟩] []).1 (by decide)
  · have h := (c5_average_order_value "s1" "Store One" "USD" 0 ⟨2025, 1, 1⟩
      [⟨"completed", ⟨2025, 1, 1⟩, some 10, []⟩,
       ⟨"completed", ⟨2025, 1, 1⟩, some 20, []⟩] []).2 (by decide)
    simpa using h

theorem customerWalk_le (getC : Nat → Nat → Except String (List Customer))
    (hlen : ∀ pp p l, getC pp p = .ok l → l.length ≤ pp) :
    ∀ (m page total t), 11 - page = m → customerWalk getC page total = .ok t →
    t ≤ total + m * 100 := by
  intro m
  induction m with
  | zero =>
    intro page total t hm hw
    rw [customerWalk, if_neg (by omega)] at hw
    cases hw
    omega
  | succ m ih =>
    intro page total t hm hw
    by_cases hp : page ≤ 10
    · rw [customerWalk, if_pos hp] at hw
      rcases hg : getC 100 page with e | l
      · rw [hg] at hw
        cases hw
      · rw [hg] at hw
        dsimp only at hw
        by_cases hl : l.length = 0
        · rw [if_pos hl] at hw
          cases hw
          omega
        · rw [if_neg hl] at hw
          have := ih (page + 1) (total + l.length) t (by omega) hw
          have := hlen 100 page l hg
          omega
    · rw [customerWalk, if_neg hp] at hw
      cases hw
      omega

/-- C3 counterexample input: the per_page 1 probe returns one
customer, the page-size-100 first page returns a full page of 100,
and the walk fails at page 2. -/
def getCex : Nat → Nat → Except String (List Customer)
  | 1, 1 => .ok [()]
  | 100, 1 => .ok (List.replicate 100 ())
  | 100, 2 => .error "boom"
  | _, _ => .error "unused"

/-- C3 counterexample: the claim says a failed capped walk falls back
to the count from a single first-page fetch of page size 100 (here
100); the code instead falls back to the length of the initial
per_page 1 probe, writing totalCustomers = 1. -/
theorem c3_fallback_counterexample :
    (collectCustomerMetrics "s1" "Store One" 0 getCex).1
      = [WriteOp.set ⟨"s1", "Store One", .apiResponseTime "customers"⟩ 0,
         WriteOp.set ⟨"s1", "Store One", .totalCustomers⟩ (1 : Nat)] ∧
    (1 : Nat) ≠ (List.replicate 100 (() : Customer)).length := by
  constructor
  · have hwalk : customerWalk getCex 2 100 = .error "boom" := by
      rw [customerWalk]
      rfl
    have hinner : customerCountInner getCex = .error "boom" := by
      rw [customerCountInner]
      simp [getCex, hwalk]
    simp [collectCustomerMetrics, getCex, hinner]
  · simp

/-- C3 as amended: the capped walk covers pages 2..10 of page size
100 on top of the first page, never counting past 10 pages (1,000
customers) when page lengths honour per_page; and when the inner
count (first full page or any walk page) fails, the reduction still
succeeds and writes totalCustomers from the initial per_page 1 probe
(a count of at most 1), not from a page-size-100 fetch. -/
theorem c3_customer_count_fallback :
    (∀ (getC : Nat → Nat → Except String (List Customer)) (sid sname : String)
      (apiDur : ℚ) (cs : List Customer) (e : String),
      getC 1 1 = .ok cs → customerCountInner getC = .error e →
      collectCustomerMetrics sid sname apiDur getC
        = ([WriteOp.set ⟨sid, sname, .apiResponseTime "customers"⟩ apiDur,
            WriteOp.set ⟨sid, sname, .totalCustomers⟩ (cs.length : Nat)], true)) ∧
    (∀ (getC : Nat → Nat → Except String (List Customer)) (t : Nat),
      (∀ pp p l, getC pp p = .ok l → l.length ≤ pp) →
      customerCountInner getC = .ok t → t ≤ 1000) := by
  constructor
  · intro getC sid sname apiDur cs e hprobe hinner
    simp [collectCustomerMetrics, hprobe, hinner]
  · intro getC t hlen hinner
    rw [customerCountInner] at hinner
    rcases hg : getC 100 1 with e | l
    · rw [hg] at hinner
      cases hinner
    · rw [hg] at hinner
      dsimp only at hinner
      by_cases hl : l.length = 100
      · rw [if_pos hl] at hinner
        have := customerWalk_le getC hlen 9 2 l.length t (by omega) hinner
        omega
      · rw [if_neg hl] at hinner
        cases hinner
        exact le_trans (hlen 100 1 l hg) (by omega)

/-- Witness for C3 as amended: the counterexample input exercises the
fallback (totalCustomers 1 from the probe), and a bounded upstream
with a single short page gives an inner count of 1, at most 1000. -/
theorem c3_customer_count_fallback_witness :
    collectCustomerMetrics "s1" "Store One" 0 getCex
      = ([WriteOp.set ⟨"s1", "Store One", .apiResponseTime "customers"⟩ 0,
          WriteOp.set ⟨"s1", "Store One", .totalCustomers⟩ (1 : Nat)], true) ∧
    (1 : Nat) ≤ 1000 := by
  constructor
  · exact c3_customer_count_fallback.1 getCex "s1" "Store One" 0 [()] "boom" rfl
      (by rw [customerCountInner]
          simp [getCex, show customerWalk getCex 2 100 = .error "boom" from by rw [customerWalk]; rfl])
  · exact c3_customer_count_fallback.2 (fun pp p => .ok (List.replicate (min pp 1) ())) 1
      (fun pp p l hl => by cases hl; simp)
      (by rw [customerCountInner]; simp)

theorem collectOrder_shape (sid sname currency : String) (apiDur : ℚ)
    (today : SimpleDate) (r : Except String (List Order)) :
    ∀ w ∈ (collectOrderMetrics sid sname currency apiDur today r).1,
    (∃ ser v, w = WriteOp.set ⟨sid, sname, ser⟩ v ∧ ser.isOrderSeries = true) ∨
    w = WriteOp.inc ⟨sid, sname, .scrapeErrors "orders"⟩ 1 := by
  cases r with
  | ok orders =>
    intro w hw
    exact Or.inl (orderWrites_shape sid sname currency apiDur today orders w hw)
  | error e =>
    intro w hw
    simp only [collectOrderMetrics, List.mem_singleton] at hw
    exact Or.inr hw

theorem collectProduct_shape (sid sname : String) (apiDur : ℚ)
    (r : Except String (List Product)) :
    ∀ w ∈ (collectProductMetrics sid sname apiDur r).1,
    (∃ ser v, w = WriteOp.set ⟨sid, sname, ser⟩ v ∧ ser.isProductSeries = true) ∨
    w = WriteOp.inc ⟨sid, sname, .scrapeErrors "products"⟩ 1 := by
  cases r with
  | ok products =>
    intro w hw
    exact Or.inl (productWrites_shape sid sname apiDur products w hw)
  | error e =>
    intro w hw
    simp only [collectProductMetrics, List.mem_singleton] at hw
    exact Or.inr hw

theorem collectCustomer_shape (sid sname : String) (apiDur : ℚ)
    (getC : Nat → Nat → Except String (List Customer)) :
    ∀ w ∈ (collectCustomerMetrics sid sname apiDur getC).1,
    (∃ ser v, w = WriteOp.set ⟨sid, sname, ser⟩ v ∧ ser.isCustomerSeries = true) ∨
    w = WriteOp.inc ⟨sid, sname, .scrapeErrors "customers"⟩ 1 := by
  intro w hw
  rcases hg : getC 1 1 with e | cs <;>
    simp only [collectCustomerMetrics, hg, List.mem_singleton, List.mem_cons,
      List.not_mem_nil, or_false] at hw
  · exact Or.inr hw
  · rcases hw with rfl | rfl
    · exact Or.inl ⟨_, _, rfl, rfl⟩
    · exact Or.inl ⟨_, _, rfl, rfl⟩

/-- Keys whose series is outside a branch classifier and is not an
error counter are never targeted by that branch. -/
theorem orderBranch_keys (sid sname currency : String) (apiDur : ℚ)
    (today : SimpleDate) (r : Except String (List Order)) (k : MKey)
    (hk : k.series.isOrderSeries = false) (hk2 : ∀ t, k.series ≠ .scrapeErrors t) :
    ∀ w ∈ (collectOrderMetrics sid sname currency apiDur today r).1, w.key ≠ k := by
  intro w hw
  rcases collectOrder_shape sid sname currency apiDur today r w hw with ⟨ser, v, rfl, hser⟩ | rfl
  · intro hEq
    rw [WriteOp.key] at hEq
    rw [← hEq] at hk
    simp only at hk
    rw [hser] at hk
    cases hk
  · intro hEq
    rw [WriteOp.key] at hEq
    exact hk2 "orders" (by rw [← hEq])

theorem productBranch_keys (sid sname : String) (apiDur : ℚ)
    (r : Except String (List Product)) (k : MKey)
    (hk : k.series.isProductSeries = false) (hk2 : ∀ t, k.series ≠ .scrapeErrors t) :
    ∀ w ∈ (collectProductMetrics sid sname apiDur r).1, w.key ≠ k := by
  intro w hw
  rcases collectProduct_shape sid sname apiDur r w hw with ⟨ser, v, rfl, hser⟩ | rfl
  · intro hEq
    rw [WriteOp.key] at hEq
    rw [← hEq] at hk
    simp only at hk
    rw [hser] at hk
    cases hk
  · intro hEq
    rw [WriteOp.key] at hEq
    exact hk2 "products" (by rw [← hEq])

theorem customerBranch_keys (sid sname : String) (apiDur : ℚ)
    (getC : Nat → Nat → Except String (List Customer)) (k : MKey)
    (hk : k.series.isCustomerSeries = false) (hk2 : ∀ t, k.series ≠ .scrapeErrors t) :
    ∀ w ∈ (collectCustomerMetrics sid sname apiDur getC).1, w.key ≠ k := by
  intro w hw
  rcases collectCustomer_shape sid sname apiDur getC w hw with ⟨ser, v, rfl, hser⟩ | rfl
  · intro hEq
    rw [WriteOp.key] at hEq
    rw [← hEq] at hk
    simp only at hk
    rw [hser] at hk
    cases hk
  · intro hEq
    rw [WriteOp.key] at hEq
    exact hk2 "customers" (by rw [← hEq])

theorem collectStoreMetrics_fst (today : SimpleDate) (s : StoreFetch) :
    (collectStoreMetrics today s).1
      = (collectOrderMetrics s.store_id s.store_name s.currency s.orderApiDur today s.orders).1
        ++ (collectProductMetrics s.store_id s.store_name s.productApiDur s.products).1
        ++ (collectCustomerMetrics s.store_id s.store_name s.customerApiDur s.getCustomers).1
        ++ [WriteOp.set ⟨s.store_id, s.store_name, .lastScrapeSuccess⟩
              ((s.endMs / 1000 : Nat) : ℚ),
            WriteOp.set ⟨s.store_id, s.store_name, .scrapeDuration⟩
              (((s.endMs : ℚ) - (s.startMs : ℚ)) / 1000)] := rfl

theorem store_no_set_scrapeErrors (today : SimpleDate) (s : StoreFetch) (t : String) :
    ∀ k' v, WriteOp.set k' v ∈ (collectStoreMetrics today s).1 →
    k' ≠ ⟨s.store_id, s.store_name, .scrapeErrors t⟩ := by
  intro k' v hw
  rw [collectStoreMetrics_fst] at hw
  simp only [List.mem_append, List.mem_cons, List.not_mem_nil, or_false] at hw
  rcases hw with ((hw | hw) | hw) | (hw | hw)
  · rcases collectOrder_shape _ _ _ _ _ _ _ hw with ⟨ser, v', hEq, hser⟩ | hEq
    · obtain ⟨hk, -⟩ := WriteOp.set.inj hEq
      subst hk
      intro hc
      obtain ⟨-, -, hs⟩ := MKey.mk.inj hc
      rw [hs] at hser
      cases hser
    · cases hEq
  · rcases collectProduct_shape _ _ _ _ _ hw with ⟨ser, v', hEq, hser⟩ | hEq
    · obtain ⟨hk, -⟩ := WriteOp.set.inj hEq
      subst hk
      intro hc
      obtain ⟨-, -, hs⟩ := MKey.mk.inj hc
      rw [hs] at hser
      cases hser
    · cases hEq
  · rcases collectCustomer_shape _ _ _ _ _ hw with ⟨ser, v', hEq, hser⟩ | hEq
    · obtain ⟨hk, -⟩ := WriteOp.set.inj hEq
      subst hk
      intro hc
      obtain ⟨-, -, hs⟩ := MKey.mk.inj hc
      rw [hs] at hser
      cases hser
    · cases hEq
  · obtain ⟨hk, -⟩ := WriteOp.set.inj hw
    subst hk
    intro hc
    obtain ⟨-, -, hs⟩ := MKey.mk.inj hc
    cases hs
  · obtain ⟨hk, -⟩ := WriteOp.set.inj hw
    subst hk
    intro hc
    obtain ⟨-, -, hs⟩ := MKey.mk.inj hc
    cases hs

theorem incSum_collectOrder (sid sname currency : String) (apiDur : ℚ)
    (today : SimpleDate) (r : Except String (List Order)) (k : MKey)
    (hne : (⟨sid, sname, .scrapeErrors "orders"⟩ : MKey) ≠ k) :
    incSum k (collectOrderMetrics sid sname currency apiDur today r).1 = 0 := by
  cases r with
  | ok orders =>
    exact incSum_of_sets _ _ (fun w hw => by
      obtain ⟨ser, v, h, -⟩ := orderWrites_shape sid sname currency apiDur today orders w hw
      exact ⟨_, _, h⟩)
  | error e =>
    simp [collectOrderMetrics, incSum, if_neg hne]

theorem incSum_collectProduct (sid sname : String) (apiDur : ℚ)
    (r : Except String (List Product)) (k : MKey)
    (hne : (⟨sid, sname, .scrapeErrors "products"⟩ : MKey) ≠ k) :
    incSum k (collectProductMetrics sid sname apiDur r).1 = 0 := by
  cases r with
  | ok products =>
    exact incSum_of_sets _ _ (fun w hw => by
      obtain ⟨ser, v, h, -⟩ := productWrites_shape sid sname apiDur products w hw
      exact ⟨_, _, h⟩)
  | error e =>
    simp [collectProductMetrics, incSum, if_neg hne]

theorem incSum_collectCustomer (sid sname : String) (apiDur : ℚ)
    (getC : Nat → Nat → Except String (List Customer)) (k : MKey)
    (hne : (⟨sid, sname, .scrapeErrors "customers"⟩ : MKey) ≠ k) :
    incSum k (collectCustomerMetrics sid sname apiDur getC).1 = 0 := by
  rcases hg : getC 1 1 with e | cs <;>
    simp [collectCustomerMetrics, hg, incSum, if_neg hne]

/-- C8: because the three reductions run under Promise.allSettled,
collectStoreMetrics resolves for every possible reduction outcome
(including all three failing), its outer catch never runs, so the
general error counter is never changed by a reduction failure, and
the orchestrator records every store collection as success true. -/
theorem c8_general_counter_unreachable (today : SimpleDate) (s : StoreFetch)
    (reg : Registry) (stores : List StoreFetch) :
    (collectStoreMetrics today s).2 = true ∧
    (applyOps reg (collectStoreMetrics today s).1).lookupD
        ⟨s.store_id, s.store_name, .scrapeErrors "general"⟩
      = reg.lookupD ⟨s.store_id, s.store_name, .scrapeErrors "general"⟩ ∧
    (collectAllMetrics today stores).2 = stores.map (fun st => (st.store_id, true)) := by
  refine ⟨rfl, ?_, ?_⟩
  · rw [lookupD_applyOps_incs _ _ _ (store_no_set_scrapeErrors today s "general")]
    rw [collectStoreMetrics_fst, incSum_append, incSum_append, incSum_append]
    rw [incSum_collectOrder _ _ _ _ _ _ _ (by simp),
      incSum_collectProduct _ _ _ _ _ (by simp),
      incSum_collectCustomer _ _ _ _ _ (by simp)]
    simp [incSum]
  · by_cases h : stores.isEmpty
    · rw [List.isEmpty_iff.mp h]
      rfl
    · simp [collectAllMetrics, h, collectStoreMetrics]

/-- The totalCustomers value collectCustomerMetrics writes once its
per_page 1 probe returned cs: the inner count when it succeeded, the
probe length when it failed. -/
def customerTotal (getC : Nat → Nat → Except String (List Customer))
    (cs : List Customer) : Nat :=
  match customerCountInner getC with
  | .ok t => t
  | .error _ => cs.length

theorem lookup_orderWrites_totalOrders (reg : Registry) (sid sname currency : String)
    (apiDur : ℚ) (today : SimpleDate) (orders : List Order) :
    (applyOps reg (orderWrites sid sname currency apiDur today orders)).lookup
        ⟨sid, sname, .totalOrders "all" currency⟩ = some (orders.length : ℚ) := by
  have hM2 : ∀ w ∈ (topProducts (orderAccOf today orders).productSales).map
      (fun e => WriteOp.set ⟨sid, sname, .topProductsSold (toString e.1) e.2.1⟩ (e.2.2 : ℚ)),
      w.key ≠ (⟨sid, sname, .totalOrders "all" currency⟩ : MKey) := by
    intro w hw
    simp only [List.mem_map] at hw
    obtain ⟨e, -, rfl⟩ := hw
    simp [WriteOp.key]
  have hM1 : ∀ w ∈ (orderAccOf today orders).statusCounts.map
      (fun sc => WriteOp.set ⟨sid, sname, .ordersByStatus sc.1 currency⟩ (sc.2 : ℚ)),
      w.key ≠ (⟨sid, sname, .totalOrders "all" currency⟩ : MKey) := by
    intro w hw
    simp only [List.mem_map] at hw
    obtain ⟨sc, -, rfl⟩ := hw
    simp [WriteOp.key]
  have hL7 : ∀ (v1 v2 v3 v4 v5 v6 v7 : ℚ), ∀ w ∈
      [WriteOp.set (⟨sid, sname, .pendingOrders⟩ : MKey) v1,
       WriteOp.set ⟨sid, sname, .failedOrders⟩ v2,
       WriteOp.set ⟨sid, sname, .processingOrders⟩ v3,
       WriteOp.set ⟨sid, sname, .totalRevenue currency "all_time"⟩ v4,
       WriteOp.set ⟨sid, sname, .revenueToday currency⟩ v5,
       WriteOp.set ⟨sid, sname, .revenueThisMonth currency⟩ v6,
       WriteOp.set ⟨sid, sname, .averageOrderValue currency "all_time"⟩ v7],
      w.key ≠ (⟨sid, sname, .totalOrders "all" currency⟩ : MKey) := by
    intro v1 v2 v3 v4 v5 v6 v7 w hw
    simp only [List.mem_cons, List.not_mem_nil, or_false] at hw
    rcases hw with rfl | rfl | rfl | rfl | rfl | rfl | rfl <;> simp [WriteOp.key]
  simp only [orderWrites]
  rw [applyOps_append, applyOps_append, applyOps_append,
    lookup_applyOps_frame _ _ _ hM2,
    lookup_applyOps_frame _ _ _ (hL7 _ _ _ _ _ _ _),
    lookup_applyOps_frame _ _ _ hM1]
  simp [applyOps, applyOp, Registry.lookup]

theorem lookup_productWrites_stock (reg : Registry) (sid sname : String)
    (apiDur : ℚ) (products : List Product) :
    (applyOps reg (productWrites sid sname apiDur products)).lookup
        ⟨sid, sname, .outOfStockProducts⟩ = some ((prodAccOf products).outOfStockCount : ℚ) ∧
    (applyOps reg (productWrites sid sname apiDur products)).lookup
        ⟨sid, sname, .lowStockProducts "10"⟩ = some ((prodAccOf products).lowStockCount : ℚ) := by
  constructor <;>
    (simp only [productWrites]
     rw [applyOps_append, applyOps_append]
     simp [applyOps, applyOp, Registry.lookup])

theorem lookup_collectCustomer_total (reg : Registry) (sid sname : String) (apiDur : ℚ)
    (getC : Nat → Nat → Except String (List Customer)) (cs : List Customer)
    (hg : getC 1 1 = .ok cs) :
    (applyOps reg (collectCustomerMetrics sid sname apiDur getC).1).lookup
        ⟨sid, sname, .totalCustomers⟩ = some ((customerTotal getC cs : Nat) : ℚ) := by
  simp [collectCustomerMetrics, hg, customerTotal, applyOps, applyOp, Registry.lookup]

/-- C1: for every store collection and every combination of
order/product/customer reduction outcomes, a failing reduction bumps
its own error counter (error_type orders, products or customers) by
exactly one while a succeeding reduction leaves it unchanged, each
succeeding reduction still writes its headline gauges (total orders;
out-of-stock and low-stock counts; total customers), and the
lastScrapeSuccess and scrapeDuration gauges are written after all
branches settle. -/
theorem c1_branch_failure_isolation (today : SimpleDate) (s : StoreFetch) (reg : Registry) :
    ((applyOps reg (collectStoreMetrics today s).1).lookupD
        ⟨s.store_id, s.store_name, .scrapeErrors "orders"⟩
      = reg.lookupD ⟨s.store_id, s.store_name, .scrapeErrors "orders"⟩
        + (match s.orders with | .error _ => 1 | .ok _ => 0)) ∧
    ((applyOps reg (collectStoreMetrics today s).1).lookupD
        ⟨s.store_id, s.store_name, .scrapeErrors "products"⟩
      = reg.lookupD ⟨s.store_id, s.store_name, .scrapeErrors "products"⟩
        + (match s.products with | .error _ => 1 | .ok _ => 0)) ∧
    ((applyOps reg (collectStoreMetrics today s).1).lookupD
        ⟨s.store_id, s.store_name, .scrapeErrors "customers"⟩
      = reg.lookupD ⟨s.store_id, s.store_name, .scrapeErrors "customers"⟩
        + (match s.getCustomers 1 1 with | .error _ => 1 | .ok _ => 0)) ∧
    (∀ os, s.orders = .ok os →
      (applyOps reg (collectStoreMetrics today s).1).lookup
          ⟨s.store_id, s.store_name, .totalOrders "all" s.currency⟩
        = some (os.length : ℚ)) ∧
    (∀ ps, s.products = .ok ps →
      (applyOps reg (collectStoreMetrics today s).1).lookup
          ⟨s.store_id, s.store_name, .outOfStockProducts⟩
        = some ((prodAccOf ps).outOfStockCount : ℚ) ∧
      (applyOps reg (collectStoreMetrics today s).1).lookup
          ⟨s.store_id, s.store_name, .lowStockProducts "10"⟩
        = some ((prodAccOf ps).lowStockCount : ℚ)) ∧
    (∀ cs, s.getCustomers 1 1 = .ok cs →
      (applyOps reg (collectStoreMetrics today s).1).lookup
          ⟨s.store_id, s.store_name, .totalCustomers⟩
        = some ((customerTotal s.getCustomers cs : Nat) : ℚ)) ∧
    (applyOps reg (collectStoreMetrics today s).1).lookup
        ⟨s.store_id, s.store_name, .lastScrapeSuccess⟩
      = some ((s.endMs / 1000 : Nat) : ℚ) ∧
    (applyOps reg (collectStoreMetrics today s).1).lookup
        ⟨s.store_id, s.store_name, .scrapeDuration⟩
      = some (((s.endMs : ℚ) - (s.startMs : ℚ)) / 1000) := by
  have htail : ∀ (k : MKey), k.series ≠ .lastScrapeSuccess → k.series ≠ .scrapeDuration →
      ∀ w ∈ [WriteOp.set (⟨s.store_id, s.store_name, .lastScrapeSuccess⟩ : MKey)
          ((s.endMs / 1000 : Nat) : ℚ),
        WriteOp.set ⟨s.store_id, s.store_name, .scrapeDuration⟩
          (((s.endMs : ℚ) - (s.startMs : ℚ)) / 1000)], w.key ≠ k := by
    intro k h1 h2 w hw
    simp only [List.mem_cons, List.not_mem_nil, or_false] at hw
    rcases hw with rfl | rfl
    · intro hc
      exact h1 (by rw [← hc]; rfl)
    · intro hc
      exact h2 (by rw [← hc]; rfl)
  refine ⟨?_, ?_, ?_, ?_, ?_, ?_, ?_, ?_⟩
  · rw [lookupD_applyOps_incs _ _ _ (store_no_set_scrapeErrors today s "orders"),
      collectStoreMetrics_fst, incSum_append, incSum_append, incSum_append,
      incSum_collectProduct _ _ _ _ _ (by simp),
      incSum_collectCustomer _ _ _ _ _ (by simp)]
    rcases hro : s.orders with e | os
    · simp [collectOrderMetrics, incSum]
    · simp only [collectOrderMetrics]
      rw [incSum_of_sets _ _ (fun w hw => by
        obtain ⟨ser, v, h, -⟩ := orderWrites_shape _ _ _ _ _ _ w hw
        exact ⟨_, _, h⟩)]
      simp [incSum]
  · rw [lookupD_applyOps_incs _ _ _ (store_no_set_scrapeErrors today s "products"),
      collectStoreMetrics_fst, incSum_append, incSum_append, incSum_append,
      incSum_collectOrder _ _ _ _ _ _ _ (by simp),
      incSum_collectCustomer _ _ _ _ _ (by simp)]
    rcases hrp : s.products with e | ps
    · simp [collectProductMetrics, incSum]
    · simp only [collectProductMetrics]
      rw [incSum_of_sets _ _ (fun w hw => by
        obtain ⟨ser, v, h, -⟩ := productWrites_shape _ _ _ _ w hw
        exact ⟨_, _, h⟩)]
      simp [incSum]
  · rw [lookupD_applyOps_incs _ _ _ (store_no_set_scrapeErrors today s "customers"),
      collectStoreMetrics_fst, incSum_append, incSum_append, incSum_append,
      incSum_collectOrder _ _ _ _ _ _ _ (by simp),
      incSum_collectProduct _ _ _ _ _ (by simp)]
    rcases hgc : s.getCustomers 1 1 with e | cs <;>
      simp [collectCustomerMetrics, hgc, incSum]
  · intro os hro
    rw [collectStoreMetrics_fst, applyOps_append, applyOps_append, applyOps_append,
      lookup_applyOps_frame _ _ _
        (htail ⟨s.store_id, s.store_name, .totalOrders "all" s.currency⟩
          (by simp) (by simp)),
      lookup_applyOps_frame _ _ _
        (customerBranch_keys s.store_id s.store_name s.customerApiDur s.getCustomers
          ⟨s.store_id, s.store_name, .totalOrders "all" s.currency⟩ rfl
          (by intro t h; cases h)),
      lookup_applyOps_frame _ _ _
        (productBranch_keys s.store_id s.store_name s.productApiDur s.products
          ⟨s.store_id, s.store_name, .totalOrders "all" s.currency⟩ rfl
          (by intro t h; cases h)),
      hro]
    exact lookup_orderWrites_totalOrders reg s.store_id s.store_name s.currency
      s.orderApiDur today os
  · intro ps hrp
    constructor
    · rw [collectStoreMetrics_fst, applyOps_append, applyOps_append, applyOps_append,
        lookup_applyOps_frame _ _ _
          (htail ⟨s.store_id, s.store_name, .outOfStockProducts⟩ (by simp) (by simp)),
        lookup_applyOps_frame _ _ _
          (customerBranch_keys s.store_id s.store_name s.customerApiDur s.getCustomers
            ⟨s.store_id, s.store_name, .outOfStockProducts⟩ rfl
            (by intro t h; cases h)),
        hrp]
      exact (lookup_productWrites_stock _ s.store_id s.store_name s.productApiDur ps).1
    · rw [collectStoreMetrics_fst, applyOps_append, applyOps_append, applyOps_append,
        lookup_applyOps_frame _ _ _
          (htail ⟨s.store_id, s.store_name, .lowStockProducts "10"⟩ (by simp) (by simp)),
        lookup_applyOps_frame _ _ _
          (customerBranch_keys s.store_id s.store_name s.customerApiDur s.getCustomers
            ⟨s.store_id, s.store_name, .lowStockProducts "10"⟩ rfl
            (by intro t h; cases h)),
        hrp]
      exact (lookup_productWrites_stock _ s.store_id s.store_name s.productApiDur ps).2
  · intro cs hgc
    rw [collectStoreMetrics_fst, applyOps_append, applyOps_append, applyOps_append,
      lookup_applyOps_frame _ _ _
        (htail ⟨s.store_id, s.store_name, .totalCustomers⟩ (by simp) (by simp))]
    exact lookup_collectCustomer_total _ s.store_id s.store_name s.customerApiDur
      s.getCustomers cs hgc
  · rw [collectStoreMetrics_fst, applyOps_append, applyOps_append, applyOps_append]
    simp [applyOps, applyOp, Registry.lookup]
  · rw [collectStoreMetrics_fst, applyOps_append, applyOps_append, applyOps_append]
    simp [applyOps, applyOp, Registry.lookup]

/-- Concrete store whose order reduction fails while the product and
customer reductions succeed. -/
def storeB : StoreFetch where
  store_id := "B"
  store_name := "Store B"
  currency := "USD"
  orders := .error "HTTP 500"
  products := .ok [⟨"publish", some 5, "instock", true⟩]
  getCustomers := fun pp p => if pp = 1 ∧ p = 1 then .ok [()] else .ok []
  orderApiDur := 0
  productApiDur := 0
  customerApiDur := 0
  startMs := 1000
  endMs := 3500

/-- Witness for C1: with orders failing and the other two reductions
succeeding, the orders error counter gains exactly 1, the products
counter is unchanged, the product gauges are written, and the success
timestamp is written. -/
theorem c1_branch_failure_isolation_witness :
    ((applyOps [] (collectStoreMetrics ⟨2025, 1, 1⟩ storeB).1).lookupD
        ⟨"B", "Store B", .scrapeErrors "orders"⟩
      = Registry.lookupD [] ⟨"B", "Store B", .scrapeErrors "orders"⟩ + 1) ∧
    ((applyOps [] (collectStoreMetrics ⟨2025, 1, 1⟩ storeB).1).lookupD
        ⟨"B", "Store B", .scrapeErrors "products"⟩
      = Registry.lookupD [] ⟨"B", "Store B", .scrapeErrors "products"⟩ + 0) ∧
    ((applyOps [] (collectStoreMetrics ⟨2025, 1, 1⟩ storeB).1).lookup
        ⟨"B", "Store B", .outOfStockProducts⟩
      = some ((prodAccOf [⟨"publish", some 5, "instock", true⟩]).outOfStockCount : ℚ)) ∧
    ((applyOps [] (collectStoreMetrics ⟨2025, 1, 1⟩ storeB).1).lookup
        ⟨"B", "Store B", .lastScrapeSuccess⟩ = some ((3500 / 1000 : Nat) : ℚ)) := by
  have h := c1_branch_failure_isolation ⟨2025, 1, 1⟩ storeB []
  exact ⟨h.1, h.2.1, (h.2.2.2.2.1 [⟨"publish", some 5, "instock", true⟩] rfl).1,
    h.2.2.2.2.2.2.1⟩

theorem mem_renderGo (reg : Registry) :
    ∀ (seen : List MKey) (k : MKey) (v : ℚ),
    reg.lookup k = some v → k ∉ seen → (k, v) ∈ renderGo reg seen := by
  induction reg with
  | nil =>
    intro seen k v hl
    cases hl
  | cons cell rest ih =>
    obtain ⟨k', v'⟩ := cell
    intro seen k v hl hseen
    by_cases hk : k' = k
    · subst hk
      rw [Registry.lookup, if_pos rfl] at hl
      cases hl
      rw [renderGo, if_neg hseen]
      exact List.mem_cons_self _ _
    · rw [Registry.lookup, if_neg hk] at hl
      by_cases hs : k' ∈ seen
      · rw [renderGo, if_pos hs]
        exact ih seen k v hl hseen
      · rw [renderGo, if_neg hs]
        refine List.mem_cons_of_mem _ (ih (k' :: seen) k v hl ?_)
        intro hc
        simp only [List.mem_cons] at hc
        rcases hc with rfl | hc
        · exact hk rfl
        · exact hseen hc

/-- C9: a gauge cell written in an earlier cycle but not targeted by
the current order reduction keeps its value, still appears in the
rendered snapshot with that stale value, and only clearMetrics
removes it. -/
theorem c9_stale_gauge_retention (sid sname currency : String) (apiDur : ℚ)
    (today : SimpleDate) (orders2 : List Order) (reg : Registry) (k : MKey) (v : ℚ)
    (hk : ∀ w ∈ orderWrites sid sname currency apiDur today orders2, w.key ≠ k)
    (hv : reg.lookup k = some v) :
    (applyOps reg (orderWrites sid sname currency apiDur today orders2)).lookup k = some v ∧
    (k, v) ∈ renderEntries (applyOps reg (orderWrites sid sname currency apiDur today orders2)) ∧
    (clearMetrics (applyOps reg (orderWrites sid sname currency apiDur today orders2))).lookup k
      = none := by
  have h1 : (applyOps reg (orderWrites sid sname currency apiDur today orders2)).lookup k
      = some v := by
    rw [lookup_applyOps_frame _ _ _ hk]
    exact hv
  exact ⟨h1, mem_renderGo _ [] k v h1 (List.not_mem_nil _), rfl⟩

/-- First collection cycle for the C9 witness: one completed order
selling 5 units of product 7. -/
def cycleOneOrders : List Order :=
  [⟨"completed", ⟨2025, 1, 1⟩, some 10, [⟨7, "Widget", some 5⟩]⟩]

/-- Second collection cycle for the C9 witness: one pending order with
no line items, so product 7 drops out of the ranking. -/
def cycleTwoOrders : List Order :=
  [⟨"pending", ⟨2025, 1, 2⟩, some 3, []⟩]

/-- Witness for C9: product 7 got topProductsSold = 5 in cycle one,
is absent from cycle two, and after cycle two the stale value 5 is
still readable and rendered, until clearMetrics drops it. -/
theorem c9_stale_gauge_retention_witness :
    (applyOps (applyOps [] (orderWrites "s1" "Store One" "USD" 0 ⟨2025, 1, 1⟩ cycleOneOrders))
        (orderWrites "s1" "Store One" "USD" 0 ⟨2025, 1, 2⟩ cycleTwoOrders)).lookup
      ⟨"s1", "Store One", .topProductsSold "7" "Widget"⟩ = some 5 ∧
    ((⟨"s1", "Store One", .topProductsSold "7" "Widget"⟩ : MKey), (5 : ℚ)) ∈
      renderEntries (applyOps
        (applyOps [] (orderWrites "s1" "Store One" "USD" 0 ⟨2025, 1, 1⟩ cycleOneOrders))
        (orderWrites "s1" "Store One" "USD" 0 ⟨2025, 1, 2⟩ cycleTwoOrders)) ∧
    (clearMetrics (applyOps
        (applyOps [] (orderWrites "s1" "Store One" "USD" 0 ⟨2025, 1, 1⟩ cycleOneOrders))
        (orderWrites "s1" "Store One" "USD" 0 ⟨2025, 1, 2⟩ cycleTwoOrders))).lookup
      ⟨"s1", "Store One", .topProductsSold "7" "Widget"⟩ = none :=
  c9_stale_gauge_retention "s1" "Store One" "USD" 0 ⟨2025, 1, 2⟩ cycleTwoOrders
    (applyOps [] (orderWrites "s1" "Store One" "USD" 0 ⟨2025, 1, 1⟩ cycleOneOrders))
    ⟨"s1", "Store One", .topProductsSold "7" "Widget"⟩ 5
    (by decide) (by decide)

end WooMetrics
